import Mathlib

/-
Shallow embedding of the js-osch-base transaction-envelope core:
src/account.js, src/asset.js and src/transaction_builder.js, translated
definition by definition.  External collaborators that live outside the
embedded files are treated as parameters or modelled from the spec:
the identity validity check (an external predicate on strings), the
identity codec (decode to raw key bytes / encode back, passed as a pair
of functions), and the arbitrary-precision number library backing the
sequence counter (modelled as exact integers: parsing an optionally
signed decimal string, canonical decimal rendering).
-/

set_option autoImplicit false

namespace OschBase

/-! ## Account (src/account.js) -/

/-- Argument value for the sequence parameter: the JS code first checks
`isString(sequence)`, so the embedding distinguishes a string argument
from any non-string value. -/
inductive SeqArg where
  | str (s : String)
  | nonString
deriving DecidableEq

/-- Error kinds the Account constructor can raise.  `invalidAccountId` is
the explicit `accountId is invalid` throw, `sequenceNotString` the explicit
`sequence must be of type string` throw, and `sequenceNotANumber` the
throw raised inside the big-number constructor for a non-numeric string. -/
inductive AccountError where
  | invalidAccountId
  | sequenceNotString
  | sequenceNotANumber
deriving DecidableEq

/-- An account: identity string plus arbitrary-precision sequence value
(the big-number field `this.sequence`). -/
structure Account where
  accountId : String
  sequence : Int
deriving DecidableEq

/-- Value of a nonempty all-digit character list, most significant first. -/
def digitsVal (l : List Char) : Option Nat :=
  if l.isEmpty || !(l.all Char.isDigit) then none
  else some (l.foldl (fun acc c => acc * 10 + (c.toNat - 48)) 0)

/-- Modelled from the spec: the external arbitrary-precision integer
library (`new BigNumber(sequence)`) parses an optionally signed decimal
integer string; a non-numeric string is rejected (the library throws). -/
def bigNumParse (s : String) : Option Int :=
  match s.toList with
  | '-' :: rest => (digitsVal rest).map (fun n => -(n : Int))
  | '+' :: rest => (digitsVal rest).map (fun n => (n : Int))
  | l => (digitsVal l).map (fun n => (n : Int))

/-- Account constructor: reject an identity that fails the external
validity check, then reject a non-string sequence, then parse the
sequence with the big-number library. -/
def Account.construct (isValidKey : String → Bool) (accountId : String)
    (sequence : SeqArg) : Except AccountError Account :=
  if isValidKey accountId then
    match sequence with
    | .nonString => .error .sequenceNotString
    | .str s =>
      match bigNumParse s with
      | none => .error .sequenceNotANumber
      | some v => .ok { accountId := accountId, sequence := v }
  else .error .invalidAccountId

/-- Returns the current sequence as its canonical decimal string
(big-number `toString`). -/
def Account.sequenceNumber (a : Account) : String :=
  toString a.sequence

/-- Increments the sequence value by one (`this.sequence.add(1)`). -/
def Account.incrementSequenceNumber (a : Account) : Account :=
  { a with sequence := a.sequence + 1 }

/-! ## Asset (src/asset.js) -/

/-- Error kinds the Asset constructor and decoder can raise. -/
inductive AssetError where
  | invalidAssetCode
  | missingIssuer
  | invalidIssuer
deriving DecidableEq

/-- An asset value: code string and optional issuer identity string. -/
structure Asset where
  code : String
  issuer : Option String
deriving DecidableEq

/-- The regex test of the constructor: between 1 and 12 ASCII
alphanumeric characters. -/
def assetCodeOk (code : String) : Bool :=
  decide (1 ≤ code.length) && decide (code.length ≤ 12)
    && code.toList.all Char.isAlphanum

/-- JS `String.prototype.toLowerCase` on the ASCII asset codes in play:
lower-case every character. -/
def jsToLowerCase (s : String) : String :=
  String.mk (s.toList.map Char.toLower)

/-- JS falsiness of the issuer argument: absent (`undefined`/`null`) or
the empty string. -/
def falsy : Option String → Bool
  | none => true
  | some s => s.isEmpty

/-- Asset constructor: reject a code that fails the regex; reject a
falsy issuer unless the code lowercases to the native ticker; reject a
truthy issuer that fails the external validity check. -/
def Asset.construct (isValidKey : String → Bool) (code : String)
    (issuer : Option String) : Except AssetError Asset :=
  if assetCodeOk code = false then .error .invalidAssetCode
  else if jsToLowerCase code ≠ "xlm" ∧ falsy issuer = true then .error .missingIssuer
  else if falsy issuer = false ∧ isValidKey (issuer.getD "") = false then
    .error .invalidIssuer
  else .ok { code := code, issuer := issuer }

/-- The native asset value produced by the factory (`new Asset('XLM')`). -/
def Asset.native : Asset :=
  { code := "XLM", issuer := none }

/-- Returns the asset code (lodash `clone` of a string is the string). -/
def Asset.getCode (a : Asset) : String :=
  a.code

/-- Returns the asset issuer. -/
def Asset.getIssuer (a : Asset) : Option String :=
  a.issuer

/-- True iff the issuer is falsy (`!this.issuer`). -/
def Asset.isNative (a : Asset) : Bool :=
  falsy a.issuer

/-- Structural equality on code and issuer (JS strict equality of both
fields). -/
def Asset.equals (a b : Asset) : Bool :=
  decide (a.code = b.getCode) && decide (a.issuer = b.getIssuer)

/-- The XDR asset union: native (no payload), or a fixed code slot plus
the issuer in raw-key form `K` (the external identity codec's image). -/
inductive XdrAsset (K : Type) where
  | assetTypeNative
  | alphaNum4 (assetCode : String) (issuer : K)
  | alphaNum12 (assetCode : String) (issuer : K)
deriving DecidableEq

/-- lodash `padEnd`: right-pad with the given character up to length
`n`; a longer string is returned unchanged. -/
def padEnd (s : String) (n : Nat) (c : Char) : String :=
  s ++ String.mk (List.replicate (n - s.length) c)

/-- lodash `trimEnd(s, null)`: drop the trailing run of null characters. -/
def trimEndNull (s : String) : String :=
  String.mk ((s.toList.reverse.dropWhile (fun c => c == Char.ofNat 0)).reverse)

/-- Encoder `toXDRObject`: the native asset becomes the payload-free
variant; otherwise the slot is chosen by code length (4 when at most 4,
else 12), the code is right-padded with null bytes to the slot width and
the issuer is decoded to raw key form by the external codec. -/
def Asset.toXDRObject {K : Type} (decodeKey : String → K) (a : Asset) :
    XdrAsset K :=
  if a.isNative then .assetTypeNative
  else
    let padLength := if a.code.length ≤ 4 then 4 else 12
    let paddedCode := padEnd a.code padLength (Char.ofNat 0)
    let issuerK := decodeKey (a.issuer.getD "")
    if a.code.length ≤ 4 then .alphaNum4 paddedCode issuerK
    else .alphaNum12 paddedCode issuerK

/-- Decoder `fromOperation`: dispatch on the union discriminant; the
native variant yields the native factory value; the alphanum variants
trim trailing null bytes from the code slot, re-encode the issuer with
the external codec and go through the constructor. -/
def Asset.fromOperation {K : Type} (isValidKey : String → Bool)
    (encodeKey : K → String) : XdrAsset K → Except AssetError Asset
  | .assetTypeNative => .ok Asset.native
  | .alphaNum4 code issuerK =>
      Asset.construct isValidKey (trimEndNull code) (some (encodeKey issuerK))
  | .alphaNum12 code issuerK =>
      Asset.construct isValidKey (trimEndNull code) (some (encodeKey issuerK))

/-! ## TransactionBuilder (src/transaction_builder.js) -/

/-- Error kinds the builder can raise. -/
inductive TxError where
  | missingSourceAccount
  | timeBoundsConflict
  | negativeTimeout
  | missingTimeBounds
deriving DecidableEq

/-- A validity window, both bounds in epoch seconds (the documented
option shape `{minTime, maxTime}` as unsigned 64-bit values). -/
structure TimeBounds where
  minTime : Nat
  maxTime : Nat
deriving DecidableEq

/-- The built transaction snapshot: the fields of the constructed XDR
transaction that this core computes (operations and memo are opaque to
the builder and carried through unchanged). -/
structure Transaction where
  sourceAccount : String
  fee : Nat
  seqNum : Int
  memo : Nat
  timeBounds : Option TimeBounds
  operations : List Nat
deriving DecidableEq

/-- Builder state: source account, appended operations, base fee, memo,
optional timebounds and the flag recording an explicit timeout decision. -/
structure TransactionBuilder where
  source : Account
  operations : List Nat
  baseFee : Nat
  memo : Nat
  timebounds : Option TimeBounds
  timeoutSet : Bool
deriving DecidableEq

/-- The default base fee constant (stroops). -/
def BASE_FEE : Nat := 100

/-- Builder constructor: reject an absent source account; default the
fee to `BASE_FEE` when unspecified; copy the timebounds option (the
aliasing behaviour of the copy is modelled separately below); default
the memo; start with no operations and no timeout decision. -/
def TransactionBuilder.construct (sourceAccount : Option Account)
    (fee : Option Nat) (timebounds : Option TimeBounds) (memo : Option Nat) :
    Except TxError TransactionBuilder :=
  match sourceAccount with
  | none => .error .missingSourceAccount
  | some src =>
    .ok { source := src
          operations := []
          baseFee := fee.getD BASE_FEE
          memo := memo.getD 0
          timebounds := timebounds
          timeoutSet := false }

/-- Appends an operation. -/
def TransactionBuilder.addOperation (b : TransactionBuilder) (op : Nat) :
    TransactionBuilder :=
  { b with operations := b.operations ++ [op] }

/-- Replaces the memo. -/
def TransactionBuilder.addMemo (b : TransactionBuilder) (m : Nat) :
    TransactionBuilder :=
  { b with memo := m }

/-- The guard of `setTimeout`: `this.timebounds != null &&
this.timebounds.maxTime > 0`. -/
def hasPositiveMaxTime : Option TimeBounds → Bool
  | none => false
  | some tb => decide (0 < tb.maxTime)

/-- Method `setTimeout(timeout)`, with the wall clock passed explicitly
as `now` (epoch seconds, the JS `Math.floor(Date.now() / 1000)`): raise
a conflict when the stored timebounds already carry a positive maxTime;
raise the negative-timeout error when `timeout < 0`; otherwise record
the decision, and for a positive timeout install `maxTime = now +
timeout`, keeping a previously configured minTime (0 when none). -/
def TransactionBuilder.setTimeout (b : TransactionBuilder) (now : Nat)
    (timeout : Int) : Except TxError TransactionBuilder :=
  if hasPositiveMaxTime b.timebounds then .error .timeBoundsConflict
  else if timeout < 0 then .error .negativeTimeout
  else
    let b := { b with timeoutSet := true }
    if 0 < timeout then
      let timeoutTimestamp := now + timeout.toNat
      match b.timebounds with
      | none =>
          .ok { b with timebounds := some { minTime := 0, maxTime := timeoutTimestamp } }
      | some tb =>
          .ok { b with timebounds := some { minTime := tb.minTime, maxTime := timeoutTimestamp } }
    else .ok b

/-- The guard of `build`: `this.timebounds === null || (this.timebounds
!== null && this.timebounds.maxTime === 0)`. -/
def noUsableMaxTime : Option TimeBounds → Bool
  | none => true
  | some tb => tb.maxTime == 0

/-- Method `build()`: raise the missing-timebounds error when the guard
holds and no timeout decision was recorded; otherwise compute the next
sequence number, assemble the transaction snapshot (fee is base fee
times operation count) and increment the source account's sequence,
returning the transaction together with the updated builder state (the
update to `source` models the in-place mutation of the shared account). -/
def TransactionBuilder.build (b : TransactionBuilder) :
    Except TxError (Transaction × TransactionBuilder) :=
  if noUsableMaxTime b.timebounds && !b.timeoutSet then
    .error .missingTimeBounds
  else
    let sequenceNumber : Int := b.source.sequence + 1
    let tx : Transaction :=
      { sourceAccount := b.source.accountId
        fee := b.baseFee * b.operations.length
        seqNum := sequenceNumber
        memo := b.memo
        timeBounds := b.timebounds
        operations := b.operations }
    .ok (tx, { b with source := b.source.incrementSequenceNumber })

/-- A freshly constructed builder with defaulted options, as
`TransactionBuilder.construct` returns it for a present source account. -/
def freshBuilder (src : Account) : TransactionBuilder :=
  { source := src
    operations := []
    baseFee := BASE_FEE
    memo := 0
    timebounds := none
    timeoutSet := false }

/-! ## Heap model of the timebounds copy (constructor line
`this.timebounds = clone(opts.timebounds)`)

JS objects are references into a heap; lodash `clone` copies the own
properties of the timebounds object into a fresh object, so a nested
`Date` stays shared between the caller's object and the builder's copy.
The model keeps a heap of timebounds objects and of mutable date cells;
a stored bound is either a plain number or a reference to a date cell. -/

/-- A JS value stored in a timebounds property: a plain number (epoch
seconds) or a reference to a mutable `Date` object. -/
inductive JsVal where
  | num (n : Nat)
  | dateRef (addr : Nat)
deriving DecidableEq

/-- A timebounds object as stored on the heap. -/
structure TBObject where
  minTime : JsVal
  maxTime : JsVal
deriving DecidableEq

/-- The heap: timebounds objects and date cells, both addressed by
naturals. -/
structure Heap where
  objs : Nat → TBObject
  dates : Nat → Nat

/-- Reading a stored bound: a number is itself, a date reference reads
the date cell. -/
def resolve (h : Heap) : JsVal → Nat
  | .num n => n
  | .dateRef a => h.dates a

/-- The timebounds the holder of object `addr` observes. -/
def observe (h : Heap) (addr : Nat) : Nat × Nat :=
  (resolve h (h.objs addr).minTime, resolve h (h.objs addr).maxTime)

/-- lodash `clone`: shallow-copy the object at `src` into the fresh
object `dst`, property values (including date references) copied as
they are. -/
def cloneTo (h : Heap) (src dst : Nat) : Heap :=
  { h with objs := fun a => if a = dst then h.objs src else h.objs a }

/-- A caller assigning the top-level `maxTime` property of the object at
`addr`. -/
def setMaxTime (h : Heap) (addr : Nat) (v : JsVal) : Heap :=
  { h with objs := fun a =>
      if a = addr then { h.objs a with maxTime := v } else h.objs a }

/-- Mutating a `Date` object in place (for example `setTime`). -/
def setDate (h : Heap) (addr t : Nat) : Heap :=
  { h with dates := fun a => if a = addr then t else h.dates a }

/-- A concrete heap: every timebounds object reads `{minTime: 0,
maxTime: <the date at cell 0>}` and every date cell holds 100. -/
def exHeap : Heap :=
  { objs := fun _ => { minTime := .num 0, maxTime := .dateRef 0 }
    dates := fun _ => 100 }

/-! ## Theorems -/

theorem noUsableMaxTime_eq_not (tb : Option TimeBounds) :
    noUsableMaxTime tb = !hasPositiveMaxTime tb := by
  cases tb with
  | none => rfl
  | some t =>
    by_cases h : t.maxTime = 0
    · simp [noUsableMaxTime, hasPositiveMaxTime, h]
    · simp [noUsableMaxTime, hasPositiveMaxTime, h, Nat.pos_of_ne_zero h]

/-- C1: when build succeeds, the source account's sequence (as seen
through the shared reference, here the returned builder state) has been
incremented by exactly 1, and the returned transaction's seqNum equals
the pre-build sequence plus 1. -/
theorem build_increments_sequence_by_one (b : TransactionBuilder)
    (tx : Transaction) (b2 : TransactionBuilder)
    (h : b.build = .ok (tx, b2)) :
    b2.source.sequence = b.source.sequence + 1
    ∧ tx.seqNum = b.source.sequence + 1 := by
  unfold TransactionBuilder.build at h
  split at h
  · exact absurd h (by simp)
  · simp only [Except.ok.injEq, Prod.mk.injEq] at h
    obtain ⟨hTx, hB⟩ := h
    subst hTx
    subst hB
    exact ⟨rfl, rfl⟩

def wAccount : Account := { accountId := "GTEST", sequence := 41 }

def wBuilder : TransactionBuilder :=
  { source := wAccount
    operations := [1, 2]
    baseFee := 100
    memo := 0
    timebounds := none
    timeoutSet := true }

def wTx : Transaction :=
  { sourceAccount := "GTEST"
    fee := 200
    seqNum := 42
    memo := 0
    timeBounds := none
    operations := [1, 2] }

def wBuilder2 : TransactionBuilder :=
  { wBuilder with source := { accountId := "GTEST", sequence := 42 } }

theorem build_increments_sequence_by_one_witness :
    wBuilder.build = .ok (wTx, wBuilder2)
    ∧ (wBuilder2.source.sequence = wBuilder.source.sequence + 1
       ∧ wTx.seqNum = wBuilder.source.sequence + 1) :=
  ⟨rfl, build_increments_sequence_by_one wBuilder wTx wBuilder2 rfl⟩

/-- C2: build fails with the missing-timebounds error exactly when the
stored timebounds carry no positive maxTime and no timeout decision was
recorded; and a sole setTimeout(0) on a freshly constructed builder with
no timebounds records the decision, after which build succeeds. -/
theorem build_missing_timebounds_characterization (b : TransactionBuilder)
    (src : Account) (now : Nat) :
    (b.build = .error .missingTimeBounds
      ↔ hasPositiveMaxTime b.timebounds = false ∧ b.timeoutSet = false)
    ∧ TransactionBuilder.construct (some src) none none none
        = .ok (freshBuilder src)
    ∧ (freshBuilder src).setTimeout now 0
        = .ok { freshBuilder src with timeoutSet := true }
    ∧ ∃ tx b2,
        ({ freshBuilder src with timeoutSet := true }).build = .ok (tx, b2) := by
  refine ⟨?_, rfl, rfl, ⟨_, _, rfl⟩⟩
  unfold TransactionBuilder.build
  rw [noUsableMaxTime_eq_not]
  cases hpm : hasPositiveMaxTime b.timebounds <;>
    cases hts : b.timeoutSet <;> simp

/-- C3: a successful build returns a transaction whose fee is exactly
the base fee times the operation count, with no clamp, so an empty
operation list yields a zero fee. -/
theorem build_fee_is_base_fee_times_op_count (b : TransactionBuilder)
    (tx : Transaction) (b2 : TransactionBuilder)
    (h : b.build = .ok (tx, b2)) :
    tx.fee = b.baseFee * b.operations.length
    ∧ (b.operations = [] → tx.fee = 0) := by
  unfold TransactionBuilder.build at h
  split at h
  · exact absurd h (by simp)
  · simp only [Except.ok.injEq, Prod.mk.injEq] at h
    obtain ⟨hTx, hB⟩ := h
    subst hTx
    refine ⟨rfl, fun hops => ?_⟩
    simp [hops]

def feeBuilder : TransactionBuilder :=
  { source := wAccount
    operations := []
    baseFee := 7
    memo := 0
    timebounds := none
    timeoutSet := true }

def feeTx : Transaction :=
  { sourceAccount := "GTEST"
    fee := 0
    seqNum := 42
    memo := 0
    timeBounds := none
    operations := [] }

def feeBuilder2 : TransactionBuilder :=
  { feeBuilder with source := { accountId := "GTEST", sequence := 42 } }

theorem build_fee_is_base_fee_times_op_count_witness :
    feeBuilder.build = .ok (feeTx, feeBuilder2)
    ∧ (feeTx.fee = feeBuilder.baseFee * feeBuilder.operations.length
       ∧ (feeBuilder.operations = [] → feeTx.fee = 0)) :=
  ⟨rfl, build_fee_is_base_fee_times_op_count feeBuilder feeTx feeBuilder2 rfl⟩

def tbuilder0 : TransactionBuilder :=
  freshBuilder { accountId := "GTEST", sequence := 0 }

/-- C7 counterexample: on a builder constructed with no timebounds,
setTimeout(0) succeeds and a second setTimeout(0) on the result also
succeeds, so calling setTimeout twice does not always raise the
conflict error. -/
theorem setTimeout_twice_with_zero_succeeds :
    tbuilder0.setTimeout 7 0 = .ok { tbuilder0 with timeoutSet := true }
    ∧ ({ tbuilder0 with timeoutSet := true }).setTimeout 7 0
        = .ok { tbuilder0 with timeoutSet := true } :=
  ⟨rfl, rfl⟩

/-- C7 amended: setTimeout raises the conflict error exactly when the
builder's current timebounds carry a positive maxTime (whether supplied
at construction or installed by an earlier positive setTimeout); when
there is no such conflict it raises the negative-timeout error exactly
when the seconds argument is negative. -/
theorem setTimeout_error_characterization (b : TransactionBuilder)
    (now : Nat) (t : Int) :
    (b.setTimeout now t = .error .timeBoundsConflict
      ↔ hasPositiveMaxTime b.timebounds = true)
    ∧ (hasPositiveMaxTime b.timebounds = false →
        (b.setTimeout now t = .error .negativeTimeout ↔ t < 0)) := by
  unfold TransactionBuilder.setTimeout
  cases hpm : hasPositiveMaxTime b.timebounds
  · by_cases ht : t < 0
    · simp [ht]
    · by_cases htp : 0 < t
      · cases htb : b.timebounds <;> simp [ht, htp, htb]
      · simp [ht, htp]
  · simp

/-- C5 counterexample: with a validity check accepting the identity,
construction with the negative sequence string "-1" succeeds (the code
performs no non-negativity check), storing the value -1. -/
theorem account_accepts_negative_sequence :
    Account.construct (fun s => s == "GTEST") "GTEST" (.str "-1")
      = .ok { accountId := "GTEST", sequence := -1 } :=
  rfl

/-- C5 amended: construction fails with the invalid-identity error when
the identity fails the external validity check; with a valid identity it
fails with the type error when the sequence is not a string, fails
inside the number parser when the string is not numeric, and accepts
every parseable integer string, including negative ones. -/
theorem account_construct_error_cases (isValidKey : String → Bool)
    (accountId : String) (s : String) :
    (isValidKey accountId = false →
        Account.construct isValidKey accountId (.str s) = .error .invalidAccountId
        ∧ Account.construct isValidKey accountId .nonString
            = .error .invalidAccountId)
    ∧ (isValidKey accountId = true →
        Account.construct isValidKey accountId .nonString
            = .error .sequenceNotString
        ∧ (bigNumParse s = none →
            Account.construct isValidKey accountId (.str s)
              = .error .sequenceNotANumber)
        ∧ (∀ v : Int, bigNumParse s = some v →
            Account.construct isValidKey accountId (.str s)
              = .ok { accountId := accountId, sequence := v })) := by
  constructor
  · intro h
    constructor <;> simp [Account.construct, h]
  · intro h
    refine ⟨by simp [Account.construct, h], fun hp => ?_, fun v hp => ?_⟩
    · simp [Account.construct, h, hp]
    · simp [Account.construct, h, hp]

/-- C9 counterexample: the sequence string "007" is accepted, but the
stored value renders canonically, so sequenceNumber() returns "7" and
not the original string. -/
theorem sequence_string_not_returned_verbatim :
    Account.construct (fun s => s == "GTEST") "GTEST" (.str "007")
      = .ok { accountId := "GTEST", sequence := 7 }
    ∧ ({ accountId := "GTEST", sequence := 7 } : Account).sequenceNumber = "7"
    ∧ ("7" : String) ≠ "007" :=
  ⟨rfl, rfl, by decide⟩

/-- C9 amended: for a valid identity and a sequence string that parses
to the integer v, construction stores v exactly, sequenceNumber()
returns the canonical decimal rendering of v (equal to the input string
when it carries no redundant leading zeros), and one increment yields
exactly the rendering of v + 1, with arbitrary precision. -/
theorem account_sequence_arbitrary_precision (isValidKey : String → Bool)
    (id s : String) (v : Int)
    (hid : isValidKey id = true) (hp : bigNumParse s = some v) :
    Account.construct isValidKey id (.str s)
      = .ok { accountId := id, sequence := v }
    ∧ ({ accountId := id, sequence := v } : Account).sequenceNumber = toString v
    ∧ (({ accountId := id, sequence := v } : Account).incrementSequenceNumber).sequenceNumber
        = toString (v + 1) := by
  refine ⟨by simp [Account.construct, hid, hp], rfl, rfl⟩

theorem account_sequence_arbitrary_precision_witness :
    ((fun x : String => x == "GTEST") "GTEST" = true)
    ∧ bigNumParse "18446744073709551615" = some 18446744073709551615
    ∧ (Account.construct (fun x : String => x == "GTEST") "GTEST"
          (.str "18446744073709551615")
        = .ok { accountId := "GTEST", sequence := 18446744073709551615 }
       ∧ ({ accountId := "GTEST", sequence := (18446744073709551615 : Int) } : Account).sequenceNumber
           = toString (18446744073709551615 : Int)
       ∧ (({ accountId := "GTEST", sequence := (18446744073709551615 : Int) } : Account).incrementSequenceNumber).sequenceNumber
           = toString ((18446744073709551615 : Int) + 1)) :=
  ⟨rfl, rfl,
    account_sequence_arbitrary_precision (fun x : String => x == "GTEST")
      "GTEST" "18446744073709551615" 18446744073709551615 rfl rfl⟩

/-- C10: the constructor accepts the native ticker written in lower
case with no issuer; the result reports isNative() = true, yet it is
not equal under equals to the native factory asset, whose code is
exactly "XLM". -/
theorem lowercase_native_isNative_but_not_equal_native :
    Asset.construct (fun _ => true) "xlm" none
      = .ok { code := "xlm", issuer := none }
    ∧ ({ code := "xlm", issuer := none } : Asset).isNative = true
    ∧ Asset.equals { code := "xlm", issuer := none } Asset.native = false
    ∧ Asset.native.code = "XLM" :=
  ⟨rfl, rfl, rfl, rfl⟩

/-- C6 counterexample: an asset whose code is exactly the native ticker
(case-insensitively "xlm") is constructible with a present, valid
issuer, so the ticker does not force the issuer to be absent. -/
theorem native_ticker_with_issuer_constructs :
    Asset.construct (fun x => x == "GISS") "XLM" (some "GISS")
      = .ok { code := "XLM", issuer := some "GISS" }
    ∧ jsToLowerCase ({ code := "XLM", issuer := some "GISS" } : Asset).code = "xlm" :=
  ⟨rfl, rfl⟩

/-- C6 amended: only one direction of the invariant holds: every
constructible asset whose issuer is absent (falsy) has a code that
case-insensitively equals the native ticker; the converse fails. -/
theorem issuer_absent_implies_native_code (isValidKey : String → Bool)
    (code : String) (issuer : Option String) (a : Asset)
    (h : Asset.construct isValidKey code issuer = .ok a)
    (hI : falsy a.issuer = true) :
    jsToLowerCase a.code = "xlm" := by
  unfold Asset.construct at h
  split_ifs at h with h1 h2 h3
  injection h with h4
  subst h4
  by_contra hne
  exact h2 ⟨hne, hI⟩

theorem issuer_absent_implies_native_code_witness :
    Asset.construct (fun x : String => x == "GISS") "xlm" none
      = .ok { code := "xlm", issuer := none }
    ∧ falsy ({ code := "xlm", issuer := none } : Asset).issuer = true
    ∧ jsToLowerCase ({ code := "xlm", issuer := none } : Asset).code = "xlm" :=
  ⟨rfl, rfl,
    issuer_absent_implies_native_code (fun x : String => x == "GISS")
      "xlm" none { code := "xlm", issuer := none } rfl rfl⟩

/-- C4 counterexample: the asset constructed from the valid pair
("xlm", absent issuer) encodes to the native canonical variant, which
decodes to the factory native asset with code "XLM", and the two are
not equal under equals. -/
theorem asset_roundtrip_fails_on_lowercase_native :
    Asset.construct (fun _ => true) "xlm" none
      = .ok { code := "xlm", issuer := none }
    ∧ Asset.fromOperation (fun _ => true) (fun k : String => k)
        (Asset.toXDRObject (fun s : String => s) { code := "xlm", issuer := none })
      = .ok Asset.native
    ∧ Asset.equals { code := "xlm", issuer := none } Asset.native = false :=
  ⟨rfl, rfl, rfl⟩

theorem dropWhile_replicate_append (p : Char → Bool) (c : Char)
    (hp : p c = true) (k : Nat) (l : List Char) :
    List.dropWhile p (List.replicate k c ++ l) = List.dropWhile p l := by
  induction k with
  | zero => rfl
  | succ n ih => simp [List.replicate_succ, List.dropWhile_cons, hp, ih]

theorem dropWhile_eq_self_of_forall (p : Char → Bool) (l : List Char)
    (h : ∀ x ∈ l, p x = false) :
    List.dropWhile p l = l := by
  cases l with
  | nil => rfl
  | cons a as => simp [List.dropWhile_cons, h a (List.mem_cons_self a as)]

theorem alphanum_not_null (c : Char) (h : c.isAlphanum = true) :
    (c == Char.ofNat 0) = false := by
  cases hc : (c == Char.ofNat 0)
  · rfl
  · have hce : c = Char.ofNat 0 := eq_of_beq hc
    subst hce
    exact absurd h (by decide)

theorem trimEndNull_padEnd (s : String) (n : Nat)
    (h : s.toList.all Char.isAlphanum = true) :
    trimEndNull (padEnd s n (Char.ofNat 0)) = s := by
  unfold trimEndNull padEnd
  have htl : (s ++ String.mk (List.replicate (n - s.length) (Char.ofNat 0))).toList
      = s.toList ++ List.replicate (n - s.length) (Char.ofNat 0) := rfl
  rw [htl, List.reverse_append, List.reverse_replicate]
  rw [dropWhile_replicate_append _ _ (by simp) _ _]
  rw [dropWhile_eq_self_of_forall]
  · rw [List.reverse_reverse]
    rfl
  · intro x hx
    exact alphanum_not_null x
      ((List.all_eq_true.mp h) x (List.mem_reverse.mp hx))

/-- C4 amended: for every asset constructed with a present, non-empty
issuer, and an identity codec whose encoder undoes its decoder on that
issuer, the canonical form selects the 4-byte slot when the code length
is at most 4 and the 12-byte slot when it is 5 to 12, right-padding the
code with null bytes; decoding trims the padding back off and yields the
original asset, equal under equals; the canonical native asset also
round-trips.  The round trip fails only for an asset built from a
lower-case variant of the native ticker with issuer absent. -/
theorem asset_roundtrip_nonnative {K : Type} (decodeKey : String → K)
    (encodeKey : K → String) (isValidKey : String → Bool)
    (code issuerStr : String) (a : Asset)
    (hc : Asset.construct isValidKey code (some issuerStr) = .ok a)
    (hne : issuerStr ≠ "")
    (hcodec : encodeKey (decodeKey issuerStr) = issuerStr) :
    (code.length ≤ 4 →
       a.toXDRObject decodeKey
         = .alphaNum4 (padEnd code 4 (Char.ofNat 0)) (decodeKey issuerStr))
    ∧ (4 < code.length →
       a.toXDRObject decodeKey
         = .alphaNum12 (padEnd code 12 (Char.ofNat 0)) (decodeKey issuerStr))
    ∧ Asset.fromOperation isValidKey encodeKey (a.toXDRObject decodeKey) = .ok a
    ∧ Asset.equals a a = true
    ∧ Asset.fromOperation isValidKey encodeKey
        (Asset.native.toXDRObject decodeKey) = .ok Asset.native := by
  have hfal : falsy (some issuerStr) = false := by
    cases hse : issuerStr.isEmpty
    · simpa [falsy] using hse
    · exact absurd ((String.isEmpty_iff issuerStr).mp hse) hne
  unfold Asset.construct at hc
  split_ifs at hc with h1 h2 h3
  injection hc with hc4
  subst hc4
  have hcodeOk : assetCodeOk code = true := by
    cases hco : assetCodeOk code
    · exact absurd hco h1
    · rfl
  have hvalid : isValidKey issuerStr = true := by
    cases hv : isValidKey issuerStr
    · exact absurd ⟨hfal, hv⟩ h3
    · rfl
  have halpha : code.toList.all Char.isAlphanum = true := by
    have hh := hcodeOk
    unfold assetCodeOk at hh
    simp only [Bool.and_eq_true] at hh
    exact hh.2
  have hnn : ({ code := code, issuer := some issuerStr } : Asset).isNative = false :=
    hfal
  refine ⟨?_, ?_, ?_, by simp [Asset.equals, Asset.getCode, Asset.getIssuer], rfl⟩
  · intro hlen
    simp [Asset.toXDRObject, hnn, hlen]
  · intro hgt
    have hlen : ¬ code.length ≤ 4 := by omega
    simp [Asset.toXDRObject, hnn, hlen]
  · by_cases hlen : code.length ≤ 4
    · have hx : ({ code := code, issuer := some issuerStr } : Asset).toXDRObject decodeKey
          = .alphaNum4 (padEnd code 4 (Char.ofNat 0)) (decodeKey issuerStr) := by
        simp [Asset.toXDRObject, hnn, hlen]
      rw [hx]
      simp only [Asset.fromOperation]
      rw [hcodec, trimEndNull_padEnd code 4 halpha]
      simp [Asset.construct, hcodeOk, hfal, hvalid]
    · have hx : ({ code := code, issuer := some issuerStr } : Asset).toXDRObject decodeKey
          = .alphaNum12 (padEnd code 12 (Char.ofNat 0)) (decodeKey issuerStr) := by
        simp [Asset.toXDRObject, hnn, hlen]
      rw [hx]
      simp only [Asset.fromOperation]
      rw [hcodec, trimEndNull_padEnd code 12 halpha]
      simp [Asset.construct, hcodeOk, hfal, hvalid]

theorem asset_roundtrip_nonnative_witness :
    Asset.construct (fun x : String => x == "GISS") "USD" (some "GISS")
      = .ok { code := "USD", issuer := some "GISS" }
    ∧ ("GISS" : String) ≠ ""
    ∧ (fun s : String => s) ((fun s : String => s) "GISS") = "GISS"
    ∧ ((("USD" : String).length ≤ 4 →
          ({ code := "USD", issuer := some "GISS" } : Asset).toXDRObject
              (fun s : String => s)
            = .alphaNum4 (padEnd "USD" 4 (Char.ofNat 0))
                ((fun s : String => s) "GISS"))
       ∧ (4 < ("USD" : String).length →
          ({ code := "USD", issuer := some "GISS" } : Asset).toXDRObject
              (fun s : String => s)
            = .alphaNum12 (padEnd "USD" 12 (Char.ofNat 0))
                ((fun s : String => s) "GISS"))
       ∧ Asset.fromOperation (fun x : String => x == "GISS") (fun s : String => s)
           (({ code := "USD", issuer := some "GISS" } : Asset).toXDRObject
             (fun s : String => s))
           = .ok { code := "USD", issuer := some "GISS" }
       ∧ Asset.equals { code := "USD", issuer := some "GISS" }
           { code := "USD", issuer := some "GISS" } = true
       ∧ Asset.fromOperation (fun x : String => x == "GISS") (fun s : String => s)
           (Asset.native.toXDRObject (fun s : String => s)) = .ok Asset.native) :=
  ⟨rfl, by decide, rfl,
    asset_roundtrip_nonnative (fun s : String => s) (fun s : String => s)
      (fun x : String => x == "GISS") "USD" "GISS"
      { code := "USD", issuer := some "GISS" } rfl (by decide) rfl⟩

/-- C8 counterexample: the builder's copy of the caller's timebounds
object (object 1, cloned from the caller's object 0) observes maxTime
100 through the shared Date cell; after the caller mutates that Date in
place, the builder's copy observes 999, so the copy is not deep and the
builder's stored timebounds did change. -/
theorem nested_date_mutation_reaches_builder :
    observe (cloneTo exHeap 0 1) 1 = (0, 100)
    ∧ observe (setDate (cloneTo exHeap 0 1) 0 999) 1 = (0, 999) :=
  ⟨rfl, rfl⟩

/-- C8 amended: the constructor's copy of the timebounds option is a
shallow clone: reassigning a top-level property of the caller's object
afterwards leaves the builder's observed timebounds unchanged, but
mutating a Date object nested inside it does reach the builder (see the
counterexample). -/
theorem shallow_clone_top_level_immune (h : Heap) (src dst : Nat) (v : JsVal)
    (hne : dst ≠ src) :
    observe (setMaxTime (cloneTo h src dst) src v) dst
      = observe (cloneTo h src dst) dst := by
  simp [observe, setMaxTime, cloneTo, resolve, hne]

theorem shallow_clone_top_level_immune_witness :
    (1 : Nat) ≠ 0
    ∧ observe (setMaxTime (cloneTo exHeap 0 1) 0 (.num 5)) 1
        = observe (cloneTo exHeap 0 1) 1 :=
  ⟨by decide, shallow_clone_top_level_immune exHeap 0 1 (.num 5) (by decide)⟩

end OschBase
